import Mathlib

/-!
Verification of the voice-based MFA backend (`backend/main.py`,
`backend/utils.py`, `backend/models.py`) against its natural-language
specification.

The Python code is shallowly embedded: every endpoint becomes a pure Lean
function from an explicit database value and explicit capability outcomes
(audio-quality screen, enhancement, spoof classifier, similarity score) to a
response and an updated database.  Floating-point numbers are idealised as
rationals (exact arithmetic) except for the cosine-similarity formula of
`compare_faces`, which needs a square root and is idealised over the reals.
AES-GCM is modelled as a CTR-style keystream xor together with an
authentication tag recomputed from (key, iv, ciphertext); the keystream and
tag functions are parameters, so every theorem holds for any instantiation.
`pickle` serialisation of a numpy vector is modelled by an explicit injective
codec on lists of rationals.
-/

deriving instance DecidableEq for Except

namespace VoiceMFA

/-! ## Serialisation of a voiceprint vector (models `pickle.dumps`/`loads`) -/

/-- A voiceprint embedding vector; numpy float arrays are idealised as lists
of rationals. -/
abbrev Vec := List ℚ

/-- Encode one rational as three naturals: sign bit, numerator magnitude,
denominator. -/
def encodeQ (q : ℚ) : List ℕ :=
  [if q < 0 then 1 else 0, q.num.natAbs, q.den]

/-- Decode the three naturals produced by `encodeQ`. -/
def decodeQ (s b d : ℕ) : ℚ :=
  (if s = 1 then -1 else 1) * (b : ℚ) / (d : ℚ)

theorem decodeQ_encodeQ (q : ℚ) :
    decodeQ (if q < 0 then 1 else 0) q.num.natAbs q.den = q := by
  rcases lt_or_le q 0 with h | h
  · have hnum : q.num < 0 := Rat.num_neg.mpr h
    have hcast : ((q.num.natAbs : ℚ)) = -(q.num : ℚ) := by
      rw [Nat.cast_natAbs, Int.cast_abs]
      exact abs_of_neg (show ((q.num : ℚ)) < 0 by exact_mod_cast hnum)
    rw [if_pos h]
    unfold decodeQ
    rw [if_pos rfl, hcast, neg_one_mul, neg_neg, Rat.num_div_den]
  · have hnum : 0 ≤ q.num := Rat.num_nonneg.mpr h
    have hcast : ((q.num.natAbs : ℚ)) = (q.num : ℚ) := by
      rw [Nat.cast_natAbs, Int.cast_abs]
      exact abs_of_nonneg (show (0 : ℚ) ≤ (q.num : ℚ) by exact_mod_cast hnum)
    rw [if_neg (not_lt.mpr h)]
    unfold decodeQ
    rw [if_neg (by decide), one_mul, hcast, Rat.num_div_den]

/-- Serialise a vector (models `pickle.dumps(embedding_np)`). -/
def pickleV : Vec → List ℕ
  | [] => []
  | q :: v => encodeQ q ++ pickleV v

/-- Deserialise a vector; fails on malformed input (models `pickle.loads`). -/
def unpickleV : List ℕ → Option Vec
  | [] => some []
  | s :: b :: d :: rest => (unpickleV rest).map (fun v => decodeQ s b d :: v)
  | _ => none

theorem unpickleV_pickleV (v : Vec) : unpickleV (pickleV v) = some v := by
  induction v with
  | nil => rfl
  | cons q v ih =>
    simp [pickleV, encodeQ, unpickleV, ih, decodeQ_encodeQ]

/-! ## CryptoVault: AES-GCM model (`encrypt_voiceprint` / `decrypt_voiceprint`) -/

/-- The AES-CTR keystream of GCM, abstract: key, iv and byte index to
keystream byte. -/
abbrev KeyStream := List ℕ → List ℕ → ℕ → ℕ

/-- The GCM authentication tag, abstract: key, iv and ciphertext to tag. -/
abbrev TagFn := List ℕ → List ℕ → List ℕ → ℕ

/-- Xor a byte stream against a keystream starting at index `i` (CTR-mode
encryption and decryption are the same operation). -/
def xorStream (f : ℕ → ℕ) : ℕ → List ℕ → List ℕ
  | _, [] => []
  | i, b :: rest => (b ^^^ f i) :: xorStream f (i + 1) rest

theorem xorStream_xorStream (f : ℕ → ℕ) (i : ℕ) (l : List ℕ) :
    xorStream f i (xorStream f i l) = l := by
  induction l generalizing i with
  | nil => rfl
  | cons b rest ih =>
    simp only [xorStream, Nat.xor_assoc, Nat.xor_self, Nat.xor_zero, ih]

/-- The self-describing blob stored at rest: `pickle.dumps` of a dict with
keys `iv`, `tag`, `ciphertext`. -/
structure Blob where
  iv : List ℕ
  tag : ℕ
  ct : List ℕ
  deriving DecidableEq

/-- Serialise a blob to raw stored bytes (models the outer `pickle.dumps`). -/
def blobEncode (b : Blob) : List ℕ :=
  b.iv.length :: b.tag :: (b.iv ++ b.ct)

/-- Parse raw stored bytes back into a blob; fails on malformed input. -/
def blobDecode : List ℕ → Option Blob
  | n :: t :: rest =>
      if n ≤ rest.length then some ⟨rest.take n, t, rest.drop n⟩ else none
  | _ => none

theorem blobDecode_blobEncode (b : Blob) : blobDecode (blobEncode b) = some b := by
  have hle : b.iv.length ≤ (b.iv ++ b.ct).length := by
    simp [List.length_append]
  simp only [blobEncode, blobDecode]
  rw [if_pos hle, List.take_left, List.drop_left]

/-- `utils.encrypt_voiceprint`: pickle the vector, encrypt with AES-GCM under
a fresh iv, and pickle the `iv`/`tag`/`ciphertext` payload. -/
def encrypt_voiceprint (ks : KeyStream) (tagf : TagFn) (key iv : List ℕ)
    (v : Vec) : List ℕ :=
  let ct := xorStream (ks key iv) 0 (pickleV v)
  blobEncode ⟨iv, tagf key iv ct, ct⟩

/-- `utils.decrypt_voiceprint`: parse the payload, verify the GCM tag, decrypt
and unpickle.  Any failure (malformed payload, tag mismatch, malformed
plaintext) is caught and surfaced as `none` — the code returns `None`. -/
def decrypt_voiceprint (ks : KeyStream) (tagf : TagFn) (key : List ℕ)
    (raw : List ℕ) : Option Vec :=
  match blobDecode raw with
  | none => none
  | some b =>
      if b.tag = tagf key b.iv b.ct then
        unpickleV (xorStream (ks key b.iv) 0 b.ct)
      else none

/-- Does the GCM tag of a stored payload verify?  AES-GCM's authentication
guarantee is that any bit flip in a stored blob makes this `false`. -/
def tagVerifies (tagf : TagFn) (key : List ℕ) (raw : List ℕ) : Bool :=
  match blobDecode raw with
  | none => false
  | some b => b.tag == tagf key b.iv b.ct

theorem decrypt_encrypt_voiceprint (ks : KeyStream) (tagf : TagFn)
    (key iv : List ℕ) (v : Vec) :
    decrypt_voiceprint ks tagf key (encrypt_voiceprint ks tagf key iv v) = some v := by
  unfold encrypt_voiceprint decrypt_voiceprint
  rw [blobDecode_blobEncode]
  simp only [if_pos rfl, if_true, xorStream_xorStream, unpickleV_pickleV]

theorem decrypt_voiceprint_of_not_tagVerifies (ks : KeyStream) (tagf : TagFn)
    (key raw : List ℕ) (h : tagVerifies tagf key raw = false) :
    decrypt_voiceprint ks tagf key raw = none := by
  unfold tagVerifies at h
  unfold decrypt_voiceprint
  cases hb : blobDecode raw with
  | none => rfl
  | some b =>
    rw [hb] at h
    simp only [beq_eq_false_iff_ne, ne_eq] at h
    simp only [if_neg h]

/-! ## CredentialStore: `hash_pin` / `verify_pin` (bcrypt model) -/

/-- The bcrypt key-derivation function, abstract: cost, salt and secret to
digest.  `bcrypt.hashpw` stores cost and salt inside the digest string;
`bcrypt.checkpw` extracts them and recomputes — modelled structurally by
`HashRec`. -/
abbrev BcryptFn := ℕ → String → String → String

/-- A bcrypt digest: the cost and salt are self-describing parts of the
stored hash string. -/
structure HashRec where
  cost : ℕ
  salt : String
  dig : String
  deriving DecidableEq

/-- `utils.hash_pin`: rejects an empty PIN or one shorter than 4 or longer
than 12 characters, then hashes with bcrypt at cost 12.  Note the code checks
only the length, not the character set. -/
def hash_pin (f : BcryptFn) (salt : String) (pin : String) : Except String HashRec :=
  if pin = "" ∨ pin.length < 4 ∨ 12 < pin.length then
    Except.error "PIN must be 4-12 characters"
  else
    Except.ok ⟨12, salt, f 12 salt pin⟩

/-- `utils.verify_pin`: `bcrypt.checkpw` recomputes the digest from the cost
and salt embedded in the stored hash and compares constant-time. -/
def verify_pin (f : BcryptFn) (plain : String) (h : HashRec) : Bool :=
  h.dig == f h.cost h.salt plain

/-- `utils.validate_pin`: the separate charset validator (4-12 characters and
alphanumeric).  `hash_pin` never calls it. -/
def validate_pin (pin : String) : Bool :=
  !(pin = "") && decide (4 ≤ pin.length) && decide (pin.length ≤ 12)
    && pin.data.all Char.isAlphanum

/-! ## Anti-spoof gate: `check_spoofing` -/

/-- `utils.check_spoofing`.  Explicit inputs stand for the process
environment and the outcomes of the two sub-checks: `skipEnv` is the value of
the environment variable `SKIP_SPOOF_CHECK`; `aiResult` is the upper-cased
label and confidence returned by the deepfake classifier (`none` models the
classifier call raising, which the code catches and fails closed); and
`is_playback` is the verdict of the playback-artifact heuristic (whose own
failures the code already converts to `false` internally).  Returns
(is_real, confidence, label) exactly as the code does. -/
def check_spoofing (skipEnv : Option String) (is_clipped : Bool)
    (aiResult : Option (String × ℚ)) (is_playback : Bool) : Bool × ℚ × String :=
  if skipEnv = some "true" then (true, 1, "REAL")
  else
    match aiResult with
    | none => (false, 0, "ERROR")
    | some (aiLabel, aiScore) =>
        let is_real := (aiLabel == "REAL") && !is_playback
        let label1 := if aiLabel = "REAL" ∧ is_playback then "PLAYBACK" else aiLabel
        let label2 :=
          if is_real = false ∧ is_clipped = true ∧ label1 = "PLAYBACK" then
            "QUALITY_ISSUE"
          else label1
        (is_real, aiScore, label2)

/-! ## Similarity scoring: `compare_faces` -/

/-- Dot product of two real vectors (`np.dot`). -/
def dotR (a b : List ℝ) : ℝ := (List.zipWith (fun x y => x * y) a b).sum

/-- `utils.compare_faces` on two available embeddings: cosine similarity
`np.dot(a, b) / (np.linalg.norm(a) * np.linalg.norm(b))`, idealised over the
reals. -/
noncomputable def compare_faces (a b : List ℝ) : ℝ :=
  dotR a b / (Real.sqrt (dotR a a) * Real.sqrt (dotR b b))

/-- The `None` guard of `utils.compare_faces` as used by the login and
clock-out pipelines: if either embedding is unavailable the score is `0.0`
and nothing is thrown; otherwise the cosine similarity is computed.  The
numeric value on two available embeddings is supplied by the parameter
`simf`, standing for the floating-point cosine evaluation. -/
def compare_emb (simf : Vec → Vec → ℚ) : Option Vec → Option Vec → ℚ
  | some a, some b => simf a b
  | _, _ => 0

/-! ## Business-logic constants and rounding -/

/-- `main.WORK_END_HOUR` (17:00) as seconds from midnight. -/
def workEndSec : ℕ := 17 * 3600

/-- `main.FINE_PER_HOUR_REMAINING`. -/
def FINE_PER_HOUR_REMAINING : ℚ := 50

/-- Python's banker's rounding to the nearest integer (round half to even),
on exact rationals. -/
def roundHalfEven (x : ℚ) : ℤ :=
  let n := ⌊x⌋
  let r := x - n
  if r < mkRat 1 2 then n
  else if mkRat 1 2 < r then n + 1
  else if n % 2 = 0 then n else n + 1

/-- Python's `round(x, 2)` on exact rationals. -/
def round2 (x : ℚ) : ℚ := (roundHalfEven (x * 100) : ℚ) / 100

/-! ## Data model (`models.py`), with datetimes as seconds since the epoch -/

/-- `models.User`. -/
structure UserRec where
  uid : ℕ
  username : String
  password_hash : HashRec
  voiceprint : List ℕ
  role : String
  failed_attempts : ℕ
  locked_until : Option ℕ
  last_login : Option ℕ
  is_active : Bool
  deriving DecidableEq

/-- `models.Challenge`. -/
structure ChallengeRec where
  cid : ℕ
  username : String
  challenge_code : String
  created_at : ℕ
  expires_at : ℕ
  used : Bool
  deriving DecidableEq

/-- `models.Attendance`. -/
structure AttendanceRec where
  aid : ℕ
  user_id : ℕ
  username : String
  date : ℕ
  clock_in : ℕ
  clock_out : Option ℕ
  status : String
  fine_amount : ℚ
  deriving DecidableEq

/-- `models.Task` (only the fields the core reads). -/
structure TaskRec where
  tid : ℕ
  user_id : ℕ
  is_completed : Bool
  deriving DecidableEq

/-- `models.PendingRegistration`. -/
structure PendingReg where
  pid : ℕ
  username : String
  password_hash : HashRec
  role : String
  sample_1_embedding : Option (List ℕ)
  sample_2_embedding : Option (List ℕ)
  sample_3_embedding : Option (List ℕ)
  created_at : ℕ
  expires_at : ℕ
  deriving DecidableEq

/-- The transactional store, one list per table. -/
structure DB where
  users : List UserRec
  challenges : List ChallengeRec
  attendance : List AttendanceRec
  tasks : List TaskRec
  pending : List PendingReg
  deriving DecidableEq

/-- `db.query(User).filter(User.username == username).first()`. -/
def findUser (db : DB) (username : String) : Option UserRec :=
  db.users.find? (fun u => u.username == username)

/-- Number of seconds in a day; `func.date` truncates to `t / secPerDay`. -/
def secPerDay : ℕ := 86400

/-- Today's open attendance record for a user
(`user_id ==, func.date(date) == today, clock_out == None`). -/
def openToday (db : DB) (uid now : ℕ) : Option AttendanceRec :=
  db.attendance.find? (fun a =>
    a.user_id == uid && a.date / secPerDay == now / secPerDay && a.clock_out == none)

/-- The most recent open attendance record for a user
(`clock_out == None`, `order_by(clock_in.desc()).first()`). -/
def latestOpen (db : DB) (uid : ℕ) : Option AttendanceRec :=
  (db.attendance.filter (fun a => a.user_id == uid && a.clock_out == none)).foldl
    (fun acc a =>
      match acc with
      | none => some a
      | some b => if b.clock_in < a.clock_in then some a else some b)
    none

/-- `count(Task with user_id == uid and is_completed == False)`. -/
def pendingCount (db : DB) (uid : ℕ) : ℕ :=
  (db.tasks.filter (fun t => t.user_id == uid && t.is_completed == false)).length

/-- `now.replace(hour=17, minute=0, second=0, microsecond=0)`: 17:00 of the
day containing `now`. -/
def cutoffOf (now : ℕ) : ℕ := (now / secPerDay) * secPerDay + workEndSec

/-! ## Endpoint models (`main.py`) -/

/-- The outcome of `utils.check_audio_quality` consumed by the endpoints:
(is_valid, snr, is_loud, is_multi). -/
structure AudioCheck where
  is_valid : Bool
  snr : ℚ
  is_loud : Bool
  is_multi : Bool
  deriving DecidableEq

/-- The quality-rejection message built by `login_user` and `clock_out`. -/
def qualityMsg (q : AudioCheck) : String :=
  if q.is_loud then "Audio is too loud (clipping)"
  else if q.is_multi then "Multiple speakers detected"
  else if q.snr < 10 then "Too much background noise"
  else "Poor audio quality"

/-- The JWT payload issued by `create_access_token` (24-hour expiry). -/
structure TokenRec where
  sub : String
  role : String
  exp : ℕ
  deriving DecidableEq

/-- `main.create_access_token`. -/
def create_access_token (username role : String) (now : ℕ) : TokenRec :=
  ⟨username, role, now + 24 * 3600⟩

/-- The success payload of `POST /login`. -/
structure LoginOk where
  role : String
  token : TokenRec
  clock_in_time : ℕ
  deriving DecidableEq

/-- `POST /get_challenge`: verify username and PIN (identical
`401 Invalid credentials` for both failures), then persist a fresh challenge
with a 300-second expiry and return its code.  `code` is the phrase produced
by `utils.generate_challenge_code` (random choice made explicit). -/
def get_challenge (f : BcryptFn) (db : DB) (username pin code : String)
    (now newCid : ℕ) : Except (ℕ × String) String × DB :=
  match findUser db username with
  | none => (Except.error (401, "Invalid credentials"), db)
  | some user =>
      if verify_pin f pin user.password_hash = false then
        (Except.error (401, "Invalid credentials"), db)
      else
        let ch : ChallengeRec := ⟨newCid, username, code, now, now + 300, false⟩
        (Except.ok code, { db with challenges := db.challenges ++ [ch] })

/-- `POST /login`.  Capability outcomes are explicit arguments: `q` from the
quality screen, `enhanced` the embedding the encoder yields on the enhanced
signal (`none` models enhancement failure), `ai`/`pb` the spoof-classifier
and playback-heuristic outcomes, `simf` the floating-point cosine score on
two available embeddings, `skipEnv` the `SKIP_SPOOF_CHECK` variable.
Returns the response and the updated database. -/
def login_user (f : BcryptFn) (ks : KeyStream) (tagf : TagFn) (key : List ℕ)
    (simf : Vec → Vec → ℚ) (skipEnv : Option String) (db : DB)
    (username pin : String) (q : AudioCheck) (enhanced : Option Vec)
    (ai : Option (String × ℚ)) (pb : Bool) (now newAid : ℕ) :
    Except (ℕ × String) LoginOk × DB :=
  match findUser db username with
  | none => (Except.error (401, "Invalid credentials"), db)
  | some user =>
      if verify_pin f pin user.password_hash = false then
        (Except.error (401, "Invalid credentials"), db)
      else if q.is_valid = false then
        (Except.error (400, "Audio quality issue: " ++ qualityMsg q ++
          ". Please find a quieter location."), db)
      else
        match enhanced with
        | none => (Except.error (400, "Audio processing failed"), db)
        | some login_emb =>
            let sp := check_spoofing skipEnv q.is_loud ai pb
            if sp.1 = false then
              if q.is_loud = true ∧ sp.2.2 = "QUALITY_ISSUE" then
                (Except.error (400, "Audio is too loud or distorted. Please move further from the microphone and try again."), db)
              else (Except.error (403, "Spoof detected"), db)
            else
              let stored := decrypt_voiceprint ks tagf key user.voiceprint
              let score := compare_emb simf (some login_emb) stored
              if score < mkRat 1 2 then (Except.error (401, "Voice mismatch"), db)
              else
                match openToday db user.uid now with
                | some att =>
                    (Except.ok ⟨user.role, create_access_token user.username user.role now,
                      att.clock_in⟩, db)
                | none =>
                    let att : AttendanceRec :=
                      ⟨newAid, user.uid, user.username, now, now, none, "Working", 0⟩
                    (Except.ok ⟨user.role, create_access_token user.username user.role now,
                      att.clock_in⟩,
                     { db with attendance := db.attendance ++ [att] })

/-- Component-wise `np.mean([e1, e2, e3], axis=0)` on equally long vectors. -/
def mean3 : Vec → Vec → Vec → Vec
  | a :: as₀, b :: bs, c :: cs => (a + b + c) / 3 :: mean3 as₀ bs cs
  | _, _, _ => []

/-- `POST /register/finalize`: requires an unexpired pending registration
with all three sample slots filled; decrypts the three sample embeddings,
averages them, re-encrypts under the fresh iv `iv2`, creates the user and
deletes the pending row in one commit.  A `None` from decryption or a numpy
shape mismatch raises inside the `try` and surfaces as a 500. -/
def register_finalize (ks : KeyStream) (tagf : TagFn) (key iv2 : List ℕ)
    (db : DB) (username : String) (now newUid : ℕ) :
    Except (ℕ × String) String × DB :=
  match db.pending.find? (fun p => p.username == username) with
  | none => (Except.error (404, "Registration session not found"), db)
  | some pending =>
      if pending.expires_at < now then
        (Except.error (410, "Registration session expired"),
         { db with pending := db.pending.filter (fun p => p.pid != pending.pid) })
      else
        match pending.sample_1_embedding, pending.sample_2_embedding,
            pending.sample_3_embedding with
        | some b1, some b2, some b3 =>
            match decrypt_voiceprint ks tagf key b1, decrypt_voiceprint ks tagf key b2,
                decrypt_voiceprint ks tagf key b3 with
            | some e1, some e2, some e3 =>
                if e1.length = e2.length ∧ e2.length = e3.length then
                  let avg := mean3 e1 e2 e3
                  let blob := encrypt_voiceprint ks tagf key iv2 avg
                  let newUser : UserRec :=
                    ⟨newUid, pending.username, pending.password_hash, blob,
                     pending.role, 0, none, none, true⟩
                  (Except.ok "Registration completed successfully",
                   { db with users := db.users ++ [newUser],
                             pending := db.pending.filter (fun p => p.pid != pending.pid) })
                else (Except.error (500, "numpy shape mismatch"), db)
            | _, _, _ => (Except.error (500, "cannot average a failed decryption"), db)
        | _, _, _ =>
            (Except.error (400, "All 3 samples must be uploaded before finalizing"), db)

/-- The non-error outcomes of `POST /clock_out`. -/
inductive ClockOutRes where
  | notClockedIn : ClockOutRes
  | done (status : String) (clock_out_time : ℕ) (fine : ℚ) (pending_tasks : ℕ) : ClockOutRes
  deriving DecidableEq

/-- `POST /clock_out`: locate the most recent open record (absence is an
informational no-op), re-run the full biometric pipeline, then compute
status and fine from the 17:00 cutoff and the pending-task count, and close
the record.  Capability outcomes are explicit arguments as in `login_user`;
`user` is the identity authenticated by the session token. -/
def clock_out (ks : KeyStream) (tagf : TagFn) (key : List ℕ)
    (simf : Vec → Vec → ℚ) (skipEnv : Option String) (db : DB) (user : UserRec)
    (q : AudioCheck) (enhanced : Option Vec) (ai : Option (String × ℚ))
    (pb : Bool) (now : ℕ) : Except (ℕ × String) ClockOutRes × DB :=
  match latestOpen db user.uid with
  | none => (Except.ok ClockOutRes.notClockedIn, db)
  | some att =>
      if q.is_valid = false then
        (Except.error (400, "Audio quality issue: " ++ qualityMsg q ++
          ". Please find a quieter location."), db)
      else
        match enhanced with
        | none => (Except.error (400, "Audio processing failed"), db)
        | some logout_emb =>
            let sp := check_spoofing skipEnv q.is_loud ai pb
            if sp.1 = false then
              if q.is_loud = true ∧ sp.2.2 = "QUALITY_ISSUE" then
                (Except.error (400, "Audio is too loud or distorted. Please move further from the microphone and try again."), db)
              else (Except.error (403, "Spoof detected"), db)
            else
              let stored := decrypt_voiceprint ks tagf key user.voiceprint
              let score := compare_emb simf (some logout_emb) stored
              if score < mkRat 1 2 then
                (Except.error (401, "Voice verification failed for clock out"), db)
              else
                let pending_tasks := pendingCount db user.uid
                let today5pm := cutoffOf now
                let is_early : Bool := decide (now < today5pm)
                let fine : ℚ :=
                  if is_early = false then 0
                  else if pending_tasks = 0 then 0
                  else round2 ((((today5pm - now : ℕ)) : ℚ) / 3600 * FINE_PER_HOUR_REMAINING)
                let status : String :=
                  if is_early = false then "Shift Completed (On Time)"
                  else if pending_tasks = 0 then "Left Early (Authorized - Work Done)"
                  else "Left Early (Fined)"
                let att2 : AttendanceRec :=
                  { att with clock_out := some now, status := status, fine_amount := fine }
                (Except.ok (ClockOutRes.done status now fine pending_tasks),
                 { db with attendance :=
                     db.attendance.map (fun a => if a.aid = att.aid then att2 else a) })

/-! ## Concrete instantiations of the capability parameters, for evaluation -/

/-- A concrete stand-in bcrypt KDF. -/
def bcrypt0 : BcryptFn := fun _ s p => s ++ p

/-- A concrete stand-in AES-CTR keystream. -/
def ks0 : KeyStream := fun _ _ _ => 0

/-- A concrete stand-in GCM tag function (sums the ciphertext bytes, so a
byte flip in a short ciphertext changes the tag). -/
def tagf0 : TagFn := fun _ _ ct => ct.sum

/-- An empty key (the key is threaded through the abstract functions). -/
def key0 : List ℕ := []

/-- A similarity stand-in that always scores 1 (same speaker). -/
def simOne : Vec → Vec → ℚ := fun _ _ => 1

/-- A similarity stand-in that always scores 0 (different speaker). -/
def simZero : Vec → Vec → ℚ := fun _ _ => 0

/-- The digest `bcrypt0` produces for salt `S` and PIN `1234`. -/
def aliceHash : HashRec := ⟨12, "S", "S1234"⟩

/-- An encrypted one-component voiceprint for the test identity. -/
def aliceBlob : List ℕ := encrypt_voiceprint ks0 tagf0 key0 [] [1]

/-- `aliceBlob` with its last stored byte flipped (bit 0 of the final
ciphertext byte). -/
def aliceBlobTampered : List ℕ := [0, 2, 0, 1, 0]

/-- A freshly enrolled test identity. -/
def alice : UserRec := ⟨1, "alice", aliceHash, aliceBlob, "employee", 0, none, none, true⟩

/-- A passing audio-quality screen outcome. -/
def qOK : AudioCheck := ⟨true, 50, false, false⟩

/-- A passing spoof-classifier outcome. -/
def aiReal : Option (String × ℚ) := some ("REAL", 1)

/-- A database holding only the test identity. -/
def dbA : DB := ⟨[alice], [], [], [], []⟩

/-! ## Helper lemmas -/

theorem dotR_self_nonneg (a : List ℝ) : 0 ≤ dotR a a := by
  induction a with
  | nil => simp [dotR]
  | cons x xs ih =>
    have hc : dotR (x :: xs) (x :: xs) = x * x + dotR xs xs := by simp [dotR]
    rw [hc]
    exact add_nonneg (mul_self_nonneg x) ih

theorem dotR_comm (a b : List ℝ) : dotR a b = dotR b a := by
  induction a generalizing b with
  | nil => cases b <;> simp [dotR]
  | cons x xs ih =>
    cases b with
    | nil => simp [dotR]
    | cons y ys =>
      have h1 : dotR (x :: xs) (y :: ys) = x * y + dotR xs ys := by simp [dotR]
      have h2 : dotR (y :: ys) (x :: xs) = y * x + dotR ys xs := by simp [dotR]
      rw [h1, h2, mul_comm x y, ih]

/-- One wrong-PIN login attempt against the test database, as a state
transformer. -/
def failedAttempt (d : DB) : DB :=
  (login_user bcrypt0 ks0 tagf0 key0 simOne none d "alice" "9999"
    qOK (some [1]) aiReal false 1000 5).2

/-! ## Claim theorems -/

/-- C1: the login code performs no lockout bookkeeping whatsoever.  Five
consecutive wrong-PIN attempts leave the account record entirely unchanged —
`failed_attempts` stays 0 and `locked_until` stays `none`, so no Locked state
is ever entered — and a subsequent correct-PIN attempt succeeds immediately
instead of failing with a lockout-class error.  This refutes the claimed
lockout state machine on a concrete run. -/
theorem lockout_never_engaged :
    failedAttempt^[5] dbA = dbA
    ∧ (login_user bcrypt0 ks0 tagf0 key0 simOne none dbA "alice" "9999"
        qOK (some [1]) aiReal false 1000 5).1 = Except.error (401, "Invalid credentials")
    ∧ (findUser dbA "alice").map (fun u => (u.failed_attempts, u.locked_until))
        = some (0, none)
    ∧ (login_user bcrypt0 ks0 tagf0 key0 simOne none dbA "alice" "1234"
        qOK (some [1]) aiReal false 1000 5).1
        = Except.ok ⟨"employee", create_access_token "alice" "employee" 1000, 1000⟩ := by
  refine ⟨?_, by decide, by decide, by decide⟩
  decide

/-- The challenge row issued in the C2 run. -/
def chal0 : ChallengeRec := ⟨7, "alice", "HAPPY TIGER RUNS AT 42", 1000, 1300, false⟩

/-- C2: challenges are issued but never validated, consumed, or expired by
any login path.  After issuing a challenge, two complete logins — both after
the challenge's `expires_at` — succeed, and the challenge row is still
present with `used = false`: nothing ever marks a challenge used, fails a
second consumption with a ChallengeError, or refuses an expired challenge. -/
theorem challenge_never_consumed :
    (get_challenge bcrypt0 dbA "alice" "1234" "HAPPY TIGER RUNS AT 42" 1000 7).1
        = Except.ok "HAPPY TIGER RUNS AT 42"
    ∧ (get_challenge bcrypt0 dbA "alice" "1234" "HAPPY TIGER RUNS AT 42" 1000 7).2.challenges
        = [chal0]
    ∧ (let db1 := (get_challenge bcrypt0 dbA "alice" "1234" "HAPPY TIGER RUNS AT 42" 1000 7).2
       let l1 := login_user bcrypt0 ks0 tagf0 key0 simOne none db1 "alice" "1234"
         qOK (some [1]) aiReal false 1400 8
       let l2 := login_user bcrypt0 ks0 tagf0 key0 simOne none l1.2 "alice" "1234"
         qOK (some [1]) aiReal false 1500 9
       l1.1 = Except.ok ⟨"employee", create_access_token "alice" "employee" 1400, 1400⟩
       ∧ l2.1 = Except.ok ⟨"employee", create_access_token "alice" "employee" 1500, 1400⟩
       ∧ l2.2.challenges = [chal0])
    ∧ chal0.used = false ∧ chal0.expires_at < 1400 := by
  refine ⟨by decide, by decide, ⟨by decide, by decide, by decide⟩, by decide, by decide⟩

/-- C8 counterexample: the secret `!!!!` lies outside the 4-12 alphanumeric
policy (wrong character set), yet `hash_pin` accepts it and returns a digest
instead of rejecting with a ValidationError — the charset half of the claim
is false; only the separate, uncalled `validate_pin` checks the charset. -/
theorem hash_pin_accepts_non_alnum :
    hash_pin bcrypt0 "S" "!!!!" = Except.ok ⟨12, "S", "S!!!!"⟩
      ∧ List.all "!!!!".data Char.isAlphanum = false
      ∧ validate_pin "!!!!" = false := by
  refine ⟨by decide, by decide, by decide⟩

/-- C8 amended: `verify(secret, hash(secret))` is true for every secret of
length 4 to 12 — any characters — and `hash_pin` rejects exactly the secrets
of length below 4 or above 12; the alphanumeric charset is not enforced by
`hash_pin`. -/
theorem pin_policy_length_only (f : BcryptFn) (salt pin : String) :
    (4 ≤ pin.length → pin.length ≤ 12 →
      hash_pin f salt pin = Except.ok ⟨12, salt, f 12 salt pin⟩
        ∧ verify_pin f pin ⟨12, salt, f 12 salt pin⟩ = true)
    ∧ (pin.length < 4 ∨ 12 < pin.length →
        hash_pin f salt pin = Except.error "PIN must be 4-12 characters") := by
  constructor
  · intro h4 h12
    have hcond : ¬ (pin = "" ∨ pin.length < 4 ∨ 12 < pin.length) := by
      push_neg
      refine ⟨?_, h4, h12⟩
      intro he
      rw [he] at h4
      exact absurd h4 (by decide)
    constructor
    · unfold hash_pin
      rw [if_neg hcond]
    · unfold verify_pin
      simp
  · intro h
    unfold hash_pin
    rw [if_pos (Or.inr h)]

/-- Witness for C8 at the policy-conformant secret `1234`. -/
theorem pin_policy_length_only_witness :
    hash_pin bcrypt0 "S" "1234" = Except.ok ⟨12, "S", bcrypt0 12 "S" "1234"⟩
      ∧ verify_pin bcrypt0 "1234" ⟨12, "S", bcrypt0 12 "S" "1234"⟩ = true :=
  (pin_policy_length_only bcrypt0 "S" "1234").1 (by decide) (by decide)

/-- C9: for every embedding vector with a nonzero norm, the cosine
similarity computed by `compare_faces` with itself is 1 (so within the
claimed 1e-6 tolerance), and similarity is symmetric for every pair of
vectors.  The zero vector is excluded: there the code divides by a zero
norm, but the speaker encoder never emits it. -/
theorem similarity_self_and_symm (a b : List ℝ) (h : dotR a a ≠ 0) :
    |compare_faces a a - 1| ≤ 1 / 1000000
      ∧ compare_faces a b = compare_faces b a := by
  constructor
  · have hself : compare_faces a a = 1 := by
      unfold compare_faces
      rw [Real.mul_self_sqrt (dotR_self_nonneg a)]
      exact div_self h
    rw [hself]
    norm_num
  · unfold compare_faces
    rw [dotR_comm a b, mul_comm]

/-- Witness for C9 at the vectors [1] and [2]. -/
theorem similarity_self_and_symm_witness :
    |compare_faces [(1 : ℝ)] [(1 : ℝ)] - 1| ≤ 1 / 1000000
      ∧ compare_faces [(1 : ℝ)] [(2 : ℝ)] = compare_faces [(2 : ℝ)] [(1 : ℝ)] :=
  similarity_self_and_symm [(1 : ℝ)] [(2 : ℝ)] (by norm_num [dotR])

/-- C10: when the environment variable `SKIP_SPOOF_CHECK` is `"true"`,
`check_spoofing` returns `(is_real = true, confidence = 1.0, label = "REAL")`
for every audio input, independent of the deepfake classifier's outcome, the
playback-artifact heuristic, and the clipping hint — so any audio, synthetic
or replayed, passes the anti-spoof gate. -/
theorem skip_spoof_env_bypass (is_clipped : Bool) (ai : Option (String × ℚ))
    (pb : Bool) :
    check_spoofing (some "true") is_clipped ai pb = (true, 1, "REAL") := by
  unfold check_spoofing
  rw [if_pos rfl]

theorem login_user_rejects_low_score
    (f : BcryptFn) (ks : KeyStream) (tagf : TagFn) (key : List ℕ)
    (simf : Vec → Vec → ℚ) (skipEnv : Option String) (db : DB)
    (username pin : String) (q : AudioCheck) (emb : Vec)
    (ai : Option (String × ℚ)) (pb : Bool) (now nid : ℕ) (user : UserRec)
    (huser : findUser db username = some user)
    (hpin : verify_pin f pin user.password_hash = true)
    (hq : q.is_valid = true)
    (hsp : (check_spoofing skipEnv q.is_loud ai pb).1 = true)
    (hscore : compare_emb simf (some emb)
        (decrypt_voiceprint ks tagf key user.voiceprint) < mkRat 1 2) :
    login_user f ks tagf key simf skipEnv db username pin q (some emb) ai pb now nid
      = (Except.error (401, "Voice mismatch"), db) := by
  unfold login_user
  rw [huser]
  simp only [hpin, hq, hsp]
  rw [if_neg (by simp), if_neg (by simp), if_neg (by simp), if_pos hscore]

/-- The test identity in the state the claimed LockoutGuard would consider
Locked: five failures recorded and a lock expiry far in the future. -/
def lockedAlice : UserRec :=
  { alice with failed_attempts := 5, locked_until := some 999999999 }

/-- A database holding only the locked test identity. -/
def dbLocked : DB := ⟨[lockedAlice], [], [], [], []⟩

/-- C3 counterexample: with the login code as written, an account in the
Locked state (lock expiry in the future) that presents the correct PIN gets
a successful login response, while an unknown username gets 401
"Invalid credentials" — the two responses are distinguishable, so the
claimed indistinguishability of unknown-username, wrong-PIN and
locked-account responses is false. -/
theorem locked_account_response_differs :
    (login_user bcrypt0 ks0 tagf0 key0 simOne none dbLocked "alice" "1234"
        qOK (some [1]) aiReal false 1000 5).1
      = Except.ok ⟨"employee", create_access_token "alice" "employee" 1000, 1000⟩
    ∧ (login_user bcrypt0 ks0 tagf0 key0 simOne none dbLocked "mallory" "1234"
        qOK (some [1]) aiReal false 1000 5).1 = Except.error (401, "Invalid credentials")
    ∧ (login_user bcrypt0 ks0 tagf0 key0 simOne none dbLocked "alice" "1234"
        qOK (some [1]) aiReal false 1000 5).1
      ≠ (login_user bcrypt0 ks0 tagf0 key0 simOne none dbLocked "mallory" "1234"
        qOK (some [1]) aiReal false 1000 5).1
    ∧ lockedAlice.locked_until = some 999999999 ∧ (1000 : ℕ) < 999999999 := by
  refine ⟨by decide, by decide, by decide, by decide, by decide⟩

/-- C3 amended: an unknown username and a wrong PIN receive the identical
response — 401 "Invalid credentials" — on both credentialed endpoints
(`/login` and `/get_challenge`), but the code contains no locked-account
check at all: `locked_until` is never read, and an account in the Locked
state that presents the correct PIN and passes the biometric gates receives
a successful login response rather than the same credential error. -/
theorem credential_error_uniformity (f : BcryptFn) (ks : KeyStream)
    (tagf : TagFn) (key : List ℕ) (simf : Vec → Vec → ℚ)
    (skipEnv : Option String) (db : DB) (username pin : String)
    (q : AudioCheck) (enh : Option Vec) (ai : Option (String × ℚ)) (pb : Bool)
    (now nid ncid : ℕ) (code : String) (emb : Vec) (user : UserRec) (t : ℕ) :
    (findUser db username = none →
      (login_user f ks tagf key simf skipEnv db username pin q enh ai pb now nid).1
          = Except.error (401, "Invalid credentials")
      ∧ (get_challenge f db username pin code now ncid).1
          = Except.error (401, "Invalid credentials"))
    ∧ (findUser db username = some user →
        verify_pin f pin user.password_hash = false →
      (login_user f ks tagf key simf skipEnv db username pin q enh ai pb now nid).1
          = Except.error (401, "Invalid credentials")
      ∧ (get_challenge f db username pin code now ncid).1
          = Except.error (401, "Invalid credentials"))
    ∧ (findUser db username = some user →
        user.locked_until = some t → now < t →
        verify_pin f pin user.password_hash = true →
        q.is_valid = true →
        (check_spoofing skipEnv q.is_loud ai pb).1 = true →
        ¬ compare_emb simf (some emb)
            (decrypt_voiceprint ks tagf key user.voiceprint) < mkRat 1 2 →
      (login_user f ks tagf key simf skipEnv db username pin q (some emb) ai pb now nid).1
          = Except.ok ⟨user.role, create_access_token user.username user.role now,
              match openToday db user.uid now with
              | some att => att.clock_in
              | none => now⟩) := by
  refine ⟨?_, ?_, ?_⟩
  · intro hnone
    constructor
    · unfold login_user
      rw [hnone]
    · unfold get_challenge
      rw [hnone]
  · intro huser hpin
    constructor
    · unfold login_user
      rw [huser]
      simp only [hpin]
      rw [if_pos trivial]
    · unfold get_challenge
      rw [huser]
      simp only [hpin]
      rw [if_pos trivial]
  · intro huser hlock hnow hpin hq hsp hscore
    unfold login_user
    rw [huser]
    simp only [hpin, hq, hsp]
    rw [if_neg (by simp), if_neg (by simp), if_neg (by simp), if_neg hscore]
    cases ho : openToday db user.uid now with
    | some att => rfl
    | none => rfl

/-- Witness for C3: the uniform credential error at an unknown username on
the locked-account database, and the successful login of the locked account
itself. -/
theorem credential_error_uniformity_witness :
    ((login_user bcrypt0 ks0 tagf0 key0 simOne none dbLocked "mallory" "1234"
        qOK (some [1]) aiReal false 1000 5).1 = Except.error (401, "Invalid credentials")
      ∧ (get_challenge bcrypt0 dbLocked "mallory" "1234" "GOLD RIVER FLOWS BY 77" 1000 7).1
        = Except.error (401, "Invalid credentials"))
    ∧ (login_user bcrypt0 ks0 tagf0 key0 simOne none dbLocked "alice" "1234"
        qOK (some [1]) aiReal false 1000 5).1
      = Except.ok ⟨lockedAlice.role,
          create_access_token lockedAlice.username lockedAlice.role 1000,
          match openToday dbLocked lockedAlice.uid 1000 with
          | some att => att.clock_in
          | none => 1000⟩ := by
  constructor
  · exact (credential_error_uniformity bcrypt0 ks0 tagf0 key0 simOne none dbLocked
      "mallory" "1234" qOK (some [1]) aiReal false 1000 5 7 "GOLD RIVER FLOWS BY 77"
      [1] lockedAlice 999999999).1 (by decide)
  · exact (credential_error_uniformity bcrypt0 ks0 tagf0 key0 simOne none dbLocked
      "alice" "1234" qOK (some [1]) aiReal false 1000 5 7 "GOLD RIVER FLOWS BY 77"
      [1] lockedAlice 999999999).2.2 (by decide) (by decide) (by decide) (by decide)
      (by decide) (by decide) (by decide)

/-- C4: for any stored voiceprint payload whose GCM authentication tag fails
to verify — which is AES-GCM's guarantee for a tampered (bit-flipped) blob,
and holds vacuously for a malformed one — decryption returns the
distinguishable failure value (`None`, embedded as `none`) and never a
plausible-but-wrong vector; the caller's similarity score against the
missing reference is exactly 0.0; and a login against such a stored
voiceprint is rejected as a voice mismatch — never treated as a match — with
the database unchanged. -/
theorem tampered_ciphertext_rejected
    (f : BcryptFn) (ks : KeyStream) (tagf : TagFn) (key : List ℕ)
    (simf : Vec → Vec → ℚ) (skipEnv : Option String) (db : DB)
    (username pin : String) (q : AudioCheck) (emb : Vec)
    (ai : Option (String × ℚ)) (pb : Bool) (now nid : ℕ) (user : UserRec)
    (hver : tagVerifies tagf key user.voiceprint = false)
    (huser : findUser db username = some user)
    (hpin : verify_pin f pin user.password_hash = true)
    (hq : q.is_valid = true)
    (hsp : (check_spoofing skipEnv q.is_loud ai pb).1 = true) :
    decrypt_voiceprint ks tagf key user.voiceprint = none
    ∧ compare_emb simf (some emb) (decrypt_voiceprint ks tagf key user.voiceprint) = 0
    ∧ login_user f ks tagf key simf skipEnv db username pin q (some emb) ai pb now nid
        = (Except.error (401, "Voice mismatch"), db) := by
  have hdec := decrypt_voiceprint_of_not_tagVerifies ks tagf key user.voiceprint hver
  refine ⟨hdec, by rw [hdec]; rfl, ?_⟩
  refine login_user_rejects_low_score f ks tagf key simf skipEnv db username pin q emb
    ai pb now nid user huser hpin hq hsp ?_
  rw [hdec]
  show (0 : ℚ) < mkRat 1 2
  decide

/-- The test identity with its stored voiceprint blob tampered: `aliceBlob`
is `[0, 2, 0, 1, 1]` and the tampered copy flips bit 0 of the last
ciphertext byte, so the stored tag 2 no longer matches. -/
def tamperedAlice : UserRec := { alice with voiceprint := [0, 2, 0, 1, 0] }

/-- A database holding only the tampered identity. -/
def dbTampered : DB := ⟨[tamperedAlice], [], [], [], []⟩

/-- Witness for C4 at the concretely tampered blob. -/
theorem tampered_ciphertext_rejected_witness :
    decrypt_voiceprint ks0 tagf0 key0 tamperedAlice.voiceprint = none
    ∧ compare_emb simOne (some [1])
        (decrypt_voiceprint ks0 tagf0 key0 tamperedAlice.voiceprint) = 0
    ∧ login_user bcrypt0 ks0 tagf0 key0 simOne none dbTampered "alice" "1234"
        qOK (some [1]) aiReal false 1000 5
        = (Except.error (401, "Voice mismatch"), dbTampered) :=
  tampered_ciphertext_rejected bcrypt0 ks0 tagf0 key0 simOne none dbTampered
    "alice" "1234" qOK [1] aiReal false 1000 5 tamperedAlice
    (by decide) (by decide) (by decide) (by decide) (by decide)

/-- C5: decrypting immediately after encrypting returns the original vector
exactly (for every key, iv and vector), and an enrollment finalised from
three accepted samples stores a reference voiceprint that decrypts to the
component-wise arithmetic mean of the three sample embeddings (`mean3`,
exact in the rational idealisation of float arithmetic, hence within any
floating-point tolerance). -/
theorem finalize_mean_and_roundtrip (ks : KeyStream) (tagf : TagFn) (key : List ℕ) :
    (∀ iv v, decrypt_voiceprint ks tagf key (encrypt_voiceprint ks tagf key iv v) = some v)
    ∧ ∀ (db : DB) (username : String) (pending : PendingReg) (e1 e2 e3 : Vec)
        (iv1 iv2 iv3 ivr : List ℕ) (now newUid : ℕ),
        db.pending.find? (fun p => p.username == username) = some pending →
        pending.sample_1_embedding = some (encrypt_voiceprint ks tagf key iv1 e1) →
        pending.sample_2_embedding = some (encrypt_voiceprint ks tagf key iv2 e2) →
        pending.sample_3_embedding = some (encrypt_voiceprint ks tagf key iv3 e3) →
        ¬ pending.expires_at < now →
        e1.length = e2.length → e2.length = e3.length →
        (register_finalize ks tagf key ivr db username now newUid).1
            = Except.ok "Registration completed successfully"
        ∧ ∃ newUser : UserRec,
            (register_finalize ks tagf key ivr db username now newUid).2.users
              = db.users ++ [newUser]
            ∧ decrypt_voiceprint ks tagf key newUser.voiceprint
              = some (mean3 e1 e2 e3) := by
  refine ⟨fun iv v => decrypt_encrypt_voiceprint ks tagf key iv v, ?_⟩
  intro db username pending e1 e2 e3 iv1 iv2 iv3 ivr now newUid
    hfind hs1 hs2 hs3 hexp hl1 hl2
  unfold register_finalize
  rw [hfind]
  simp only [hs1, hs2, hs3, if_neg hexp,
    decrypt_encrypt_voiceprint ks tagf key iv1 e1,
    decrypt_encrypt_voiceprint ks tagf key iv2 e2,
    decrypt_encrypt_voiceprint ks tagf key iv3 e3,
    if_pos (And.intro hl1 hl2)]
  refine ⟨trivial, ⟨⟨newUid, pending.username, pending.password_hash,
    encrypt_voiceprint ks tagf key ivr (mean3 e1 e2 e3), pending.role,
    0, none, none, true⟩, ?_, decrypt_encrypt_voiceprint ks tagf key ivr _⟩⟩
  rfl

/-- A pending enrollment for `carol` with three accepted encrypted sample
embeddings `[1]`, `[2]`, `[3]`. -/
def pendCarol : PendingReg :=
  ⟨1, "carol", ⟨12, "S", "S1234"⟩, "employee",
   some (encrypt_voiceprint ks0 tagf0 key0 [] [1]),
   some (encrypt_voiceprint ks0 tagf0 key0 [] [2]),
   some (encrypt_voiceprint ks0 tagf0 key0 [] [3]),
   0, 5000⟩

/-- A database holding only the pending enrollment. -/
def dbPend : DB := ⟨[], [], [], [], [pendCarol]⟩

/-- Witness for C5: finalising the concrete pending enrollment stores a
voiceprint that decrypts to `mean3 [1] [2] [3]` (that is, `[2]`). -/
theorem finalize_mean_and_roundtrip_witness :
    (register_finalize ks0 tagf0 key0 [] dbPend "carol" 100 2).1
        = Except.ok "Registration completed successfully"
    ∧ ∃ newUser : UserRec,
        (register_finalize ks0 tagf0 key0 [] dbPend "carol" 100 2).2.users
          = dbPend.users ++ [newUser]
        ∧ decrypt_voiceprint ks0 tagf0 key0 newUser.voiceprint
          = some (mean3 [1] [2] [3]) :=
  (finalize_mean_and_roundtrip ks0 tagf0 key0).2 dbPend "carol" pendCarol
    [1] [2] [3] [] [] [] [] 100 2
    (by decide) rfl rfl rfl (by decide) (by decide) (by decide)

/-- C6 counterexample: a login with the correct PIN, passing quality and
spoof gates, and a below-threshold similarity score is rejected as a voice
mismatch and creates no attendance record — but the database comes back
unchanged: `failed_attempts` is still 0, not incremented as the claim
requires. -/
theorem voice_mismatch_not_incremented :
    (login_user bcrypt0 ks0 tagf0 key0 simZero none dbA "alice" "1234"
        qOK (some [1]) aiReal false 1000 5).1 = Except.error (401, "Voice mismatch")
    ∧ (login_user bcrypt0 ks0 tagf0 key0 simZero none dbA "alice" "1234"
        qOK (some [1]) aiReal false 1000 5).2 = dbA
    ∧ dbA.users.map (fun u => u.failed_attempts) = [0]
    ∧ dbA.attendance = [] := by
  refine ⟨by decide, by decide, by decide, by decide⟩

/-- C6 amended: a login with correct PIN whose audio passes the quality and
spoof gates but scores below the similarity threshold is rejected as a voice
mismatch (401) and the database is returned completely unchanged: no
attendance record is created, and — contrary to the original claim — the
identity's `failed_attempts` counter is NOT incremented (the code performs
no failure bookkeeping). -/
theorem voice_mismatch_no_side_effects
    (f : BcryptFn) (ks : KeyStream) (tagf : TagFn) (key : List ℕ)
    (simf : Vec → Vec → ℚ) (skipEnv : Option String) (db : DB)
    (username pin : String) (q : AudioCheck) (emb : Vec)
    (ai : Option (String × ℚ)) (pb : Bool) (now nid : ℕ) (user : UserRec)
    (huser : findUser db username = some user)
    (hpin : verify_pin f pin user.password_hash = true)
    (hq : q.is_valid = true)
    (hsp : (check_spoofing skipEnv q.is_loud ai pb).1 = true)
    (hscore : compare_emb simf (some emb)
        (decrypt_voiceprint ks tagf key user.voiceprint) < mkRat 1 2) :
    login_user f ks tagf key simf skipEnv db username pin q (some emb) ai pb now nid
      = (Except.error (401, "Voice mismatch"), db) :=
  login_user_rejects_low_score f ks tagf key simf skipEnv db username pin q emb
    ai pb now nid user huser hpin hq hsp hscore

/-- Witness for C6 at the concrete different-speaker score 0. -/
theorem voice_mismatch_no_side_effects_witness :
    login_user bcrypt0 ks0 tagf0 key0 simZero none dbA "alice" "1234"
        qOK (some [1]) aiReal false 1000 5
      = (Except.error (401, "Voice mismatch"), dbA) :=
  voice_mismatch_no_side_effects bcrypt0 ks0 tagf0 key0 simZero none dbA
    "alice" "1234" qOK [1] aiReal false 1000 5 alice
    (by decide) (by decide) (by decide) (by decide) (by decide)

/-- C7: a clock-out that reaches the attendance computation (an open record
exists and the quality, spoof and similarity gates pass) yields exactly the
claimed status and fine: at or after the 17:00 cutoff the on-time completion
with fine 0; before the cutoff with zero pending tasks the authorized early
leave with fine 0; otherwise the fined early leave with
fine = round(hours_remaining x 50, 2). -/
theorem clock_out_status_fine
    (ks : KeyStream) (tagf : TagFn) (key : List ℕ) (simf : Vec → Vec → ℚ)
    (skipEnv : Option String) (db : DB) (user : UserRec) (q : AudioCheck)
    (emb : Vec) (ai : Option (String × ℚ)) (pb : Bool) (now : ℕ)
    (att : AttendanceRec)
    (hopen : latestOpen db user.uid = some att)
    (hq : q.is_valid = true)
    (hsp : (check_spoofing skipEnv q.is_loud ai pb).1 = true)
    (hscore : ¬ compare_emb simf (some emb)
        (decrypt_voiceprint ks tagf key user.voiceprint) < mkRat 1 2) :
    (clock_out ks tagf key simf skipEnv db user q (some emb) ai pb now).1
      = Except.ok (ClockOutRes.done
          (if cutoffOf now ≤ now then "Shift Completed (On Time)"
           else if pendingCount db user.uid = 0 then "Left Early (Authorized - Work Done)"
           else "Left Early (Fined)")
          now
          (if cutoffOf now ≤ now then 0
           else if pendingCount db user.uid = 0 then 0
           else round2 ((((cutoffOf now - now : ℕ)) : ℚ) / 3600 * FINE_PER_HOUR_REMAINING))
          (pendingCount db user.uid)) := by
  unfold clock_out
  rw [hopen]
  simp only [hq, hsp]
  rw [if_neg (by simp), if_neg (by simp), if_neg hscore]
  by_cases hc : cutoffOf now ≤ now
  · have he : (decide (now < cutoffOf now)) = false :=
      decide_eq_false (not_lt.mpr hc)
    simp [he, hc]
  · have he : (decide (now < cutoffOf now)) = true :=
      decide_eq_true (not_le.mp hc)
    by_cases hp : pendingCount db user.uid = 0
    · simp [he, hc, hp]
    · simp [he, hc, hp]

/-- An open attendance record for the test identity (clocked in at 30000s of
day 0, i.e. 08:20). -/
def attOpen : AttendanceRec := ⟨9, 1, "alice", 30000, 30000, none, "Working", 0⟩

/-- A working-day database: the test identity clocked in with one pending
task. -/
def dbWork : DB := ⟨[alice], [], [attOpen], [⟨3, 1, false⟩], []⟩

/-- Witness for C7: clocking out at 36000s (10:00, before the 61200s cutoff)
with one pending task takes the fined early-leave branch. -/
theorem clock_out_status_fine_witness :
    (clock_out ks0 tagf0 key0 simOne none dbWork alice qOK (some [1]) aiReal
        false 36000).1
      = Except.ok (ClockOutRes.done "Left Early (Fined)" 36000
          (round2 ((((cutoffOf 36000 - 36000 : ℕ)) : ℚ) / 3600 * FINE_PER_HOUR_REMAINING))
          (pendingCount dbWork alice.uid)) := by
  have h := clock_out_status_fine ks0 tagf0 key0 simOne none dbWork alice qOK
    [1] aiReal false 36000 attOpen (by decide) (by decide) (by decide) (by decide)
  rw [h]
  simp [show ¬ cutoffOf 36000 ≤ 36000 by decide,
    show ¬ pendingCount dbWork alice.uid = 0 by decide]

end VoiceMFA
